import Mathlib

/-!
Shallow embedding of the telegram_crypto message-ingestion pipeline
(`src/api.py`, `src/api_time.py`, `src/cmd.py`).

The Telegram client's `iter_messages` stream is modelled as a finite
`List RawMessage`; a message timestamp is modelled abstractly by its UTC
calendar date (an `Int` ordinal, order-isomorphic to calendar order) and
its `isoformat()` string.  Fallible collaborators (the message source,
the S3 upload) are modelled as oracle functions returning `Except`/`Option`.
-/

/-- A `datetime` attached to a Telegram message.  `utcDate` models
`message.date.astimezone(pytz.UTC).date()` as an order-preserving integer
code; `iso` models `message.date.isoformat()`. -/
structure Timestamp where
  utcDate : Int
  iso : String
deriving DecidableEq

/-- A raw message as yielded by `client.iter_messages`: `date`, `sender_id`
and `text` may each be absent (`None`), `id` is always present. -/
structure RawMessage where
  date : Option Timestamp
  sender_id : Option Int
  text : Option String
  id : Nat
deriving DecidableEq

/-- The dict appended to `messages` in `download_chat_messages`
(api.py lines 174-179 / cmd.py lines 104-109). -/
structure OutMessage where
  date : String
  sender_id : Option Int
  message : String
  message_id : Nat
deriving DecidableEq

/-- The dict returned by `download_chat_messages` (api.py lines 182-186). -/
structure FetchResult where
  token_name : String
  message_count : Nat
  messages : List OutMessage
deriving DecidableEq

/-- `from_date and message_date < from_date.date()` (api.py line 167). -/
def skipFrom (fromD : Option Int) (d : Int) : Bool :=
  match fromD with
  | none => false
  | some f => decide (d < f)

/-- `to_date and message_date > to_date.date()` (api.py line 169). -/
def skipTo (toD : Option Int) (d : Int) : Bool :=
  match toD with
  | none => false
  | some t => decide (t < d)

/-- The date-window acceptance test implied by the two `continue` guards:
a date is accepted iff neither skip condition fires. -/
def windowAccepts (fromD toD : Option Int) (d : Int) : Bool :=
  !(skipFrom fromD d) && !(skipTo toD d)

/-- The record built from a raw message when it is retained (fields as in
api.py lines 174-179); the defaults are never used on retained messages. -/
def outMessage (m : RawMessage) : OutMessage :=
  { date := (m.date.map Timestamp.iso).getD ""
    sender_id := m.sender_id
    message := m.text.getD ""
    message_id := m.id }

/-- The message-collection loop of `download_chat_messages`
(api.py lines 159-179, identical in cmd.py lines 92-109): skip messages
without a date, skip dates outside the window, keep only truthy text. -/
def collectMessages (fromD toD : Option Int) : List RawMessage → List OutMessage
  | [] => []
  | m :: rest =>
    match m.date with
    | none => collectMessages fromD toD rest
    | some ts =>
      if skipFrom fromD ts.utcDate then collectMessages fromD toD rest
      else if skipTo toD ts.utcDate then collectMessages fromD toD rest
      else
        match m.text with
        | none => collectMessages fromD toD rest
        | some txt =>
          if txt = "" then collectMessages fromD toD rest
          else ⟨ts.iso, m.sender_id, txt, m.id⟩ :: collectMessages fromD toD rest

/-- The retention predicate of the loop, extracted: a raw message is kept
iff it has a date, the date is in-window, and its text is truthy. -/
def passesFilter (fromD toD : Option Int) (m : RawMessage) : Bool :=
  match m.date with
  | none => false
  | some ts =>
    if skipFrom fromD ts.utcDate then false
    else if skipTo toD ts.utcDate then false
    else
      match m.text with
      | none => false
      | some txt => !(txt = "")

/-- `download_chat_messages` of api.py (success path): returns the
`{token_name, message_count, messages}` dict (lines 182-186). -/
def download_chat_messages (token_name : String) (fromD toD : Option Int)
    (stream : List RawMessage) : FetchResult :=
  let msgs := collectMessages fromD toD stream
  { token_name := token_name, message_count := msgs.length, messages := msgs }

/-- `download_chat_messages` of cmd.py (success path): returns the bare
message list (line 111). -/
def cmd_download_chat_messages (fromD toD : Option Int)
    (stream : List RawMessage) : List OutMessage :=
  collectMessages fromD toD stream

/-- Numeric value of a digit character. -/
def digitVal (c : Char) : Nat := c.toNat - 48

/-- Two-character month token of CPython strptime: `1[0-2]|0[1-9]`. -/
def monthTok2 (a b : Char) : Option Nat :=
  if a = '1' ∧ (b = '0' ∨ b = '1' ∨ b = '2') then some (10 + digitVal b)
  else if a = '0' ∧ b.isDigit ∧ b ≠ '0' then some (digitVal b)
  else none

/-- Two-character day token of CPython strptime: `3[01]|[12][0-9]|0[1-9]`. -/
def dayTok2 (a b : Char) : Option Nat :=
  if a = '3' ∧ (b = '0' ∨ b = '1') then some (30 + digitVal b)
  else if (a = '1' ∨ a = '2') ∧ b.isDigit then some (10 * digitVal a + digitVal b)
  else if a = '0' ∧ b.isDigit ∧ b ≠ '0' then some (digitVal b)
  else none

/-- One-character month/day token: `[1-9]`. -/
def tok1 (a : Char) : Option Nat :=
  if '1' ≤ a ∧ a ≤ '9' then some (digitVal a) else none

/-- Parse the day field at the end of the string (strptime rejects
unconverted trailing data, so the day must consume the remainder). -/
def parseDayEnd (cs : List Char) : Option Nat :=
  (match cs with
   | [a, b] => dayTok2 a b
   | _ => none) <|>
  (match cs with
   | [a] => tok1 a
   | _ => none)

/-- Parse `month '-' day` after the year, with regex-style backtracking:
the two-character month alternatives are tried before the one-character one. -/
def parseMonthDay (cs : List Char) : Option (Nat × Nat) :=
  (match cs with
   | a :: b :: '-' :: rest =>
     (monthTok2 a b).bind fun m => (parseDayEnd rest).map fun d => (m, d)
   | _ => none) <|>
  (match cs with
   | a :: '-' :: rest =>
     (tok1 a).bind fun m => (parseDayEnd rest).map fun d => (m, d)
   | _ => none)

/-- `datetime.strptime(s, "%Y-%m-%d")` field extraction: a 4-digit year,
`'-'`, then month/day fields, anchored at both ends. -/
def parseYMD : List Char → Option (Nat × Nat × Nat)
  | y1 :: y2 :: y3 :: y4 :: '-' :: rest =>
    if y1.isDigit ∧ y2.isDigit ∧ y3.isDigit ∧ y4.isDigit then
      (parseMonthDay rest).map fun md =>
        (1000 * digitVal y1 + 100 * digitVal y2 + 10 * digitVal y3 + digitVal y4,
         md.1, md.2)
    else none
  | _ => none

/-- Gregorian leap-year rule used by `datetime`. -/
def isLeap (y : Nat) : Bool :=
  (y % 4 == 0) && (y % 100 != 0 || y % 400 == 0)

/-- Days in a month, as validated by the `datetime` constructor. -/
def daysInMonth (y m : Nat) : Nat :=
  if m = 2 then (if isLeap y then 29 else 28)
  else if m = 4 ∨ m = 6 ∨ m = 9 ∨ m = 11 then 30
  else 31

/-- `datetime(y, m, d)` construction succeeds: year at least `MINYEAR = 1`
and the day exists in the month (month 1-12 and day at least 1 are already
guaranteed by the strptime field patterns). -/
def validYMD (y m d : Nat) : Bool :=
  decide (1 ≤ y) && decide (d ≤ daysInMonth y m)

/-- Order-preserving integer code of a calendar date (valid dates have
month below 100 and day below 100, so this is order-isomorphic to
lexicographic calendar order). -/
def dateCode (y m d : Nat) : Int := Int.ofNat (y * 10000 + m * 100 + d)

/-- `HTTPException`: status code and detail string. -/
structure HTTPErr where
  status : Nat
  detail : String
deriving DecidableEq

/-- Starlette renders `str(HTTPException)` as `"{status_code}: {detail}"`. -/
def strHTTPErr (e : HTTPErr) : String :=
  toString e.status ++ ": " ++ e.detail

/-- The error raised by `parse_date` (api.py lines 66-69). -/
def invalidDateErr : HTTPErr :=
  ⟨400, "Invalid date format. Use YYYY-MM-DD."⟩

/-- `parse_date` (api.py lines 50-69): strptime with format `%Y-%m-%d`;
any `ValueError` (bad fields or invalid calendar date) becomes the
400 `HTTPException`. -/
def parse_date (s : String) : Except HTTPErr Int :=
  match parseYMD s.toList with
  | none => .error invalidDateErr
  | some (y, m, d) =>
    if validYMD y m d then .ok (dateCode y m d) else .error invalidDateErr

/-- `parse_date(x) if x else None` (api.py lines 221-222). -/
def parseOptDate : Option String → Except HTTPErr (Option Int)
  | none => .ok none
  | some s =>
    match parse_date s with
    | .error e => .error e
    | .ok d => .ok (some d)

/-- Modelled from the spec's words, for comparison with `parse_date`:
the "4-digit-year/2-digit-month/2-digit-day pattern" of section 4.1,
i.e. exactly `DDDD-DD-DD` with literal dashes. -/
def matchesSpecYMDPattern (s : String) : Bool :=
  match s.toList with
  | [y1, y2, y3, y4, '-', m1, m2, '-', d1, d2] =>
    y1.isDigit && y2.isDigit && y3.isDigit && y4.isDigit &&
      m1.isDigit && m2.isDigit && d1.isDigit && d2.isDigit
  | _ => false

/-- JSON documents, as passed to `json.dumps` / `json.dump`. -/
inductive Json where
  | null : Json
  | str : String → Json
  | num : Int → Json
  | arr : List Json → Json
  | obj : List (String × Json) → Json

/-- The JSON object serialized for one retained message. -/
def msgJson (m : OutMessage) : Json :=
  .obj [("date", .str m.date),
        ("sender_id", match m.sender_id with | some i => .num i | none => .null),
        ("message", .str m.message),
        ("message_id", .num m.message_id)]

/-- The document written by the api.py / api_time.py archive step:
`json.dumps(result, indent=4)` where `result` is the
`{token_name, message_count, messages}` dict. -/
def apiArtifactJson (r : FetchResult) : Json :=
  .obj [("token_name", .str r.token_name),
        ("message_count", .num r.message_count),
        ("messages", .arr (r.messages.map msgJson))]

/-- The document written by the cmd.py archive step:
`json.dump(messages, f, indent=4)` — the bare message list (line 131). -/
def cmdArtifactJson (msgs : List OutMessage) : Json :=
  .arr (msgs.map msgJson)

/-- One message object of the persisted schema claimed in the spec:
keys `date` (string), `sender_id` (number or null), `message` (string),
`message_id` (number), in that order. -/
def isMessageObj : Json → Bool
  | .obj [(k1, .str _), (k2, sid), (k3, .str _), (k4, .num _)] =>
    (k1 == "date") && (k2 == "sender_id") && (k3 == "message") &&
      (k4 == "message_id") &&
      (match sid with | .num _ => true | .null => true | _ => false)
  | _ => false

/-- The persisted-artifact schema claimed in the spec:
`\x7btoken_name: string, message_count: integer, messages: [...]\x7d`. -/
def hasArtifactSchema : Json → Bool
  | .obj [(k1, .str _), (k2, .num _), (k3, .arr msgs)] =>
    (k1 == "token_name") && (k2 == "message_count") && (k3 == "messages") &&
      msgs.all isMessageObj
  | _ => false

/-- Lower-case hexadecimal digit. -/
def hexDigit (n : Nat) : Char :=
  if n < 10 then Char.ofNat (48 + n) else Char.ofNat (87 + n)

/-- Four-digit hexadecimal rendering used by JSON `\u` escapes. -/
def hex4 (n : Nat) : String :=
  String.mk [hexDigit (n / 4096 % 16), hexDigit (n / 256 % 16),
             hexDigit (n / 16 % 16), hexDigit (n % 16)]

/-- Python `str.strip()` whitespace set (ASCII part). -/
def isPySpace (c : Char) : Bool :=
  c = ' ' || c = '\t' || c = '\n' || c = '\x0b' || c = '\x0c' || c = '\r'

/-- Python `str.strip()`: remove leading and trailing whitespace
(`username.strip()`, api.py line 235 / cmd.py line 123). -/
def pyStrip (s : String) : String :=
  String.mk (((s.toList.dropWhile isPySpace).reverse.dropWhile isPySpace).reverse)

/-- Character escaping of `json.dumps` with default `ensure_ascii=True`:
printable ASCII is kept, everything else escaped. -/
def escapeChar (c : Char) : String :=
  if c = '"' then "\\\""
  else if c = '\\' then "\\\\"
  else if c = '\n' then "\\n"
  else if c = '\t' then "\\t"
  else if c = '\r' then "\\r"
  else if c.toNat = 8 then "\\b"
  else if c.toNat = 12 then "\\f"
  else if c.toNat < 32 then "\\u" ++ hex4 c.toNat
  else if c.toNat < 127 then String.singleton c
  else if c.toNat ≤ 65535 then "\\u" ++ hex4 c.toNat
  else
    let v := c.toNat - 65536
    "\\u" ++ hex4 (55296 + v / 1024) ++ "\\u" ++ hex4 (56320 + v % 1024)

/-- A JSON string literal. -/
def pyStr (s : String) : String :=
  "\"" ++ String.join (s.toList.map escapeChar) ++ "\""

/-- A JSON number-or-null for the optional `sender_id`. -/
def jsonIntOpt : Option Int → String
  | some i => toString i
  | none => "null"

/-- One message object as laid out by `json.dumps(..., indent=4)` when
nested two levels deep (keys indented 12 spaces, closing brace 8). -/
def serializeMessage (m : OutMessage) : String :=
  "\x7b\n            \"date\": " ++ pyStr m.date ++
    ",\n            \"sender_id\": " ++ jsonIntOpt m.sender_id ++
    ",\n            \"message\": " ++ pyStr m.message ++
    ",\n            \"message_id\": " ++ toString m.message_id ++
    "\n        \x7d"

/-- The `messages` array as laid out by `json.dumps(..., indent=4)`. -/
def serializeMessages : List OutMessage → String
  | [] => "[]"
  | ms =>
    "[\n        " ++ String.intercalate ",\n        " (ms.map serializeMessage) ++
      "\n    ]"

/-- `json.dumps(result, indent=4)` on the `download_chat_messages` dict:
keys in insertion order `token_name`, `message_count`, `messages`,
indentation fixed at 4 spaces per level. -/
def serializeFetchResult (r : FetchResult) : String :=
  "\x7b\n    \"token_name\": " ++ pyStr r.token_name ++
    ",\n    \"message_count\": " ++ toString r.message_count ++
    ",\n    \"messages\": " ++ serializeMessages r.messages ++
    "\n\x7d"

/-- Failures of the Telegram message source: `ChatInvalidError` or any
other exception with its message. -/
inductive SourceErr where
  | chatInvalid : SourceErr
  | other : String → SourceErr
deriving DecidableEq

/-- The error mapping of `download_chat_messages` (api.py lines 188-199):
`ChatInvalidError` becomes a 404, anything else a 500. -/
def downloadResult (username token_name : String) (fromD toD : Option Int)
    (src : Except SourceErr (List RawMessage)) : Except HTTPErr FetchResult :=
  match src with
  | .error .chatInvalid =>
    .error ⟨404, "Chat \x27" ++ username ++ "\x27 not found or inaccessible."⟩
  | .error (.other s) =>
    .error ⟨500, "Error downloading messages: " ++ s⟩
  | .ok stream => .ok (download_chat_messages token_name fromD toD stream)

/-- One entry of `result_summary` (api.py lines 257-276). -/
inductive Outcome where
  | success : String → Nat → String → Outcome
  | failed : String → String → Outcome
deriving DecidableEq

/-- The `username` field present in both summary-entry shapes. -/
def Outcome.username : Outcome → String
  | .success u _ _ => u
  | .failed u _ => u

/-- The HTTPS URL built for an uploaded object (api.py lines 251-253). -/
def s3Url (bucket region key : String) : String :=
  "https://" ++ bucket ++ ".s3." ++ region ++ ".amazonaws.com/" ++ key

/-- `f"telegram_{identifier}_{datetime.now().strftime('%Y_%m_%d')}.json"`
(api.py line 246 / cmd.py line 129); `runDate` is the formatted run date. -/
def artifactFilename (identifier runDate : String) : String :=
  "telegram_" ++ identifier ++ "_" ++ runDate ++ ".json"

/-- The body of one loop iteration of `process_messages_file`
(api.py lines 234-276): strip the username, fetch, write the JSON artifact,
upload; any failure is caught and recorded as a failed summary entry.
Returns the outcome and the file writes performed (filename and document).
`uploadErr` is the upload oracle: `none` means success, `some e` the
stringified exception, which `upload_file_to_s3` wraps in a 500. -/
def processChannel (fromD toD : Option Int)
    (source : String → Except SourceErr (List RawMessage))
    (uploadErr : String → Option String)
    (bucket region runDate : String) (username : String) :
    Outcome × List (String × Json) :=
  let u := pyStrip username
  match downloadResult u ("Token_" ++ u) fromD toD (source u) with
  | .error e => (.failed u e.detail, [])
  | .ok r =>
    let fn := artifactFilename u runDate
    match uploadErr fn with
    | some e =>
      (.failed u ("Failed to upload file to S3: " ++ e), [(fn, apiArtifactJson r)])
    | none =>
      (.success u r.message_count (s3Url bucket region fn), [(fn, apiArtifactJson r)])

/-- The orchestrator loop of `process_messages_file` (api.py lines 234-277)
and `process_messages_daily` (api_time.py lines 104-145): one outcome per
username, in input order, collecting all file writes. -/
def processChannels (fromD toD : Option Int)
    (source : String → Except SourceErr (List RawMessage))
    (uploadErr : String → Option String)
    (bucket region runDate : String) :
    List String → List Outcome × List (String × Json)
  | [] => ([], [])
  | u :: rest =>
    let pc := processChannel fromD toD source uploadErr bucket region runDate u
    let pr := processChannels fromD toD source uploadErr bucket region runDate rest
    (pc.1 :: pr.1, pc.2 ++ pr.2)

/-- Observable result of one `process_messages_file` request: the HTTP
response or error, the usernames for which a fetch was attempted, and the
artifact writes performed. -/
structure ProcOut where
  result : Except HTTPErr (List Outcome)
  fetches : List String
  writes : List (String × Json)

/-- The outer `except Exception` of `process_messages_file`
(api.py lines 280-285) re-raises any exception as a 500. -/
def wrapOuter (e : HTTPErr) : HTTPErr :=
  ⟨500, "Error processing file: " ++ strHTTPErr e⟩

/-- `process_messages_file` (api.py lines 202-285): parse both dates (a
failure propagates to the outer handler before any channel is touched),
verify the bucket, then run the per-channel loop.  `bucketErr` is the
bucket-provisioning oracle (`some e` models a creation failure, which
`create_s3_bucket` wraps in a 500). -/
def process_messages_file (fromS toS : Option String) (usernames : List String)
    (bucketErr : Option String)
    (source : String → Except SourceErr (List RawMessage))
    (uploadErr : String → Option String)
    (bucket region runDate : String) : ProcOut :=
  match parseOptDate fromS with
  | .error e => ⟨.error (wrapOuter e), [], []⟩
  | .ok fromD =>
    match parseOptDate toS with
    | .error e => ⟨.error (wrapOuter e), [], []⟩
    | .ok toD =>
      match bucketErr with
      | some msg =>
        ⟨.error (wrapOuter ⟨500,
          "Failed to create bucket \x27" ++ bucket ++ "\x27: " ++ msg⟩), [], []⟩
      | none =>
        let pr := processChannels fromD toD source uploadErr bucket region runDate usernames
        ⟨.ok pr.1, usernames.map pyStrip, pr.2⟩

/-- `process_chats` of cmd.py (lines 120-136): per username, fetch and
write the bare message list; every exception is caught and only logged, so
a failed channel produces no write and processing continues.  Returns the
file writes performed (filename and document). -/
def cmd_process_chats (fromD toD : Option Int)
    (source : String → Except SourceErr (List RawMessage))
    (runDate : String) : List String → List (String × Json)
  | [] => []
  | u :: rest =>
    match source u with
    | .error _ => cmd_process_chats fromD toD source runDate rest
    | .ok stream =>
      let msgs := collectMessages fromD toD stream
      (artifactFilename u runDate, cmdArtifactJson msgs) ::
        cmd_process_chats fromD toD source runDate rest

theorem collectMessages_eq_filter_map (fromD toD : Option Int) :
    ∀ s : List RawMessage,
      collectMessages fromD toD s =
        (s.filter (passesFilter fromD toD)).map outMessage := by
  intro s
  induction s with
  | nil => rfl
  | cons m rest ih =>
    cases hd : m.date with
    | none =>
      simp [collectMessages, passesFilter, hd, ih]
    | some ts =>
      cases hF : skipFrom fromD ts.utcDate with
      | true => simp [collectMessages, passesFilter, hd, hF, ih]
      | false =>
        cases hT : skipTo toD ts.utcDate with
        | true => simp [collectMessages, passesFilter, hd, hF, hT, ih]
        | false =>
          cases ht : m.text with
          | none => simp [collectMessages, passesFilter, hd, hF, hT, ht, ih]
          | some txt =>
            by_cases he : txt = ""
            · simp [collectMessages, passesFilter, hd, hF, hT, ht, he, ih]
            · simp [collectMessages, passesFilter, outMessage, hd, hF, hT, ht, he, ih]

theorem skipFrom_false_le {fromD : Option Int} {d : Int}
    (h : skipFrom fromD d = false) : ∀ f, fromD = some f → f ≤ d := by
  intro f hf
  subst hf
  simp [skipFrom] at h
  omega

theorem skipTo_false_le {toD : Option Int} {d : Int}
    (h : skipTo toD d = false) : ∀ t, toD = some t → d ≤ t := by
  intro t ht
  subst ht
  simp [skipTo] at h
  omega

theorem passesFilter_spec {fromD toD : Option Int} {m : RawMessage}
    (h : passesFilter fromD toD m = true) :
    ∃ ts, m.date = some ts ∧ skipFrom fromD ts.utcDate = false ∧
      skipTo toD ts.utcDate = false ∧ ∃ txt, m.text = some txt ∧ txt ≠ "" := by
  cases hd : m.date with
  | none => simp [passesFilter, hd] at h
  | some ts =>
    refine ⟨ts, rfl, ?_⟩
    cases hF : skipFrom fromD ts.utcDate with
    | true => simp [passesFilter, hd, hF] at h
    | false =>
      cases hT : skipTo toD ts.utcDate with
      | true => simp [passesFilter, hd, hF, hT] at h
      | false =>
        cases ht : m.text with
        | none => simp [passesFilter, hd, hF, hT, ht] at h
        | some txt =>
          simp [passesFilter, hd, hF, hT, ht] at h
          exact ⟨rfl, rfl, txt, rfl, h⟩

/-- C10: fetch preserves the source stream's enumeration order: the
`messages` sequence of the `FetchResult` (api.py) and the bare list
returned by cmd.py are exactly the passing subsequence of the stream, in
the stream's order — filtering never reorders, duplicates or interleaves. -/
theorem fetch_preserves_order (tok : String) (fromD toD : Option Int)
    (stream : List RawMessage) :
    (download_chat_messages tok fromD toD stream).messages =
      (stream.filter (passesFilter fromD toD)).map outMessage ∧
    cmd_download_chat_messages fromD toD stream =
      (stream.filter (passesFilter fromD toD)).map outMessage :=
  ⟨collectMessages_eq_filter_map fromD toD stream,
   collectMessages_eq_filter_map fromD toD stream⟩

/-- C1: the fetch returns only messages whose UTC calendar date is
in-window under the inclusive membership test (`from` absent or
`from <= date`, and `to` absent or `date <= to`); with both bounds
present no returned message's date lies outside `[from, to]`, and with
both bounds absent the window test accepts every date. -/
theorem fetch_only_in_window (tok : String) (fromD toD : Option Int)
    (stream : List RawMessage) :
    (∀ om ∈ (download_chat_messages tok fromD toD stream).messages,
       ∃ m ∈ stream, ∃ ts, m.date = some ts ∧ om = outMessage m ∧
         (∀ f, fromD = some f → f ≤ ts.utcDate) ∧
         (∀ t, toD = some t → ts.utcDate ≤ t)) ∧
    (∀ d : Int, windowAccepts none none d = true) := by
  constructor
  · intro om hom
    have hmsgs : (download_chat_messages tok fromD toD stream).messages =
        (stream.filter (passesFilter fromD toD)).map outMessage :=
      collectMessages_eq_filter_map fromD toD stream
    rw [hmsgs] at hom
    rcases List.mem_map.mp hom with ⟨m, hmf, heq⟩
    rcases List.mem_filter.mp hmf with ⟨hmem, hpass⟩
    rcases passesFilter_spec hpass with ⟨ts, hd, hF, hT, _⟩
    exact ⟨m, hmem, ts, hd, heq.symm, skipFrom_false_le hF, skipTo_false_le hT⟩
  · intro d
    rfl

/-- C2: the fetch scans the full stream and never exits early on window
boundaries: any raw message passing the filters appears in the result even
when arbitrary (e.g. out-of-window) messages precede it in the stream. -/
theorem fetch_no_early_exit (tok : String) (fromD toD : Option Int)
    (s1 s2 : List RawMessage) (m : RawMessage)
    (h : passesFilter fromD toD m = true) :
    outMessage m ∈ (download_chat_messages tok fromD toD (s1 ++ m :: s2)).messages := by
  have hmsgs : (download_chat_messages tok fromD toD (s1 ++ m :: s2)).messages =
      ((s1 ++ m :: s2).filter (passesFilter fromD toD)).map outMessage :=
    collectMessages_eq_filter_map fromD toD (s1 ++ m :: s2)
  rw [hmsgs]
  exact List.mem_map_of_mem outMessage (List.mem_filter.mpr ⟨by simp, h⟩)

/-- C3: no message with an absent timestamp and none with empty or absent
text ever appears in a `FetchResult`: every returned message stems from a
raw message with a present date and with the returned non-empty text; and
such drops are silent — the fetch still succeeds (no error is reported). -/
theorem fetch_filter_invariant (tok : String) (fromD toD : Option Int)
    (stream : List RawMessage) :
    (∀ om ∈ (download_chat_messages tok fromD toD stream).messages,
       ∃ m ∈ stream, m.date ≠ none ∧ m.text = some om.message ∧
         om.message ≠ "") ∧
    (∀ u, downloadResult u tok fromD toD (Except.ok stream) =
       Except.ok (download_chat_messages tok fromD toD stream)) := by
  constructor
  · intro om hom
    have hmsgs : (download_chat_messages tok fromD toD stream).messages =
        (stream.filter (passesFilter fromD toD)).map outMessage :=
      collectMessages_eq_filter_map fromD toD stream
    rw [hmsgs] at hom
    rcases List.mem_map.mp hom with ⟨m, hmf, heq⟩
    rcases List.mem_filter.mp hmf with ⟨hmem, hpass⟩
    rcases passesFilter_spec hpass with ⟨ts, hd, _, _, txt, ht, hne⟩
    refine ⟨m, hmem, by simp [hd], ?_, ?_⟩
    · rw [← heq]
      simp [outMessage, ht]
    · rw [← heq]
      simpa [outMessage, ht] using hne
  · intro u
    rfl

theorem fetch_only_in_window_witness :
    ∃ m ∈ [RawMessage.mk (some ⟨6, "T6"⟩) (some 1) (some "hi") 10],
      ∃ ts, m.date = some ts ∧
        (⟨"T6", some 1, "hi", 10⟩ : OutMessage) = outMessage m ∧
        (∀ f, (some (5 : Int)) = some f → f ≤ ts.utcDate) ∧
        (∀ t, (some (9 : Int)) = some t → ts.utcDate ≤ t) :=
  (fetch_only_in_window "t" (some 5) (some 9)
    [RawMessage.mk (some ⟨6, "T6"⟩) (some 1) (some "hi") 10]).1
    ⟨"T6", some 1, "hi", 10⟩ (by decide)

theorem fetch_no_early_exit_witness :
    passesFilter (some 5) (some 9)
      (RawMessage.mk (some ⟨6, "T6"⟩) (some 2) (some "hi") 2) = true ∧
    outMessage (RawMessage.mk (some ⟨6, "T6"⟩) (some 2) (some "hi") 2) ∈
      (download_chat_messages "t" (some 5) (some 9)
        ([RawMessage.mk (some ⟨1, "T1"⟩) none (some "x") 1] ++
          RawMessage.mk (some ⟨6, "T6"⟩) (some 2) (some "hi") 2 :: [])).messages :=
  ⟨by decide,
   fetch_no_early_exit "t" (some 5) (some 9)
     [RawMessage.mk (some ⟨1, "T1"⟩) none (some "x") 1] []
     (RawMessage.mk (some ⟨6, "T6"⟩) (some 2) (some "hi") 2) (by decide)⟩

theorem fetch_filter_invariant_witness :
    ∃ m ∈ [RawMessage.mk (some ⟨6, "T6"⟩) none (some "hi") 3],
      m.date ≠ none ∧ m.text = some (OutMessage.message ⟨"T6", none, "hi", 3⟩) ∧
      OutMessage.message ⟨"T6", none, "hi", 3⟩ ≠ "" :=
  (fetch_filter_invariant "t" none none
    [RawMessage.mk (some ⟨6, "T6"⟩) none (some "hi") 3]).1
    ⟨"T6", none, "hi", 3⟩ (by decide)

theorem processChannel_username (fromD toD : Option Int)
    (source : String → Except SourceErr (List RawMessage))
    (uploadErr : String → Option String) (bucket region runDate u : String) :
    (processChannel fromD toD source uploadErr bucket region runDate u).1.username =
      pyStrip u := by
  unfold processChannel
  cases h : downloadResult (pyStrip u) ("Token_" ++ pyStrip u) fromD toD
      (source (pyStrip u)) with
  | error e => simp [h, Outcome.username]
  | ok r =>
    cases h2 : uploadErr (artifactFilename (pyStrip u) runDate) with
    | none => simp [h, h2, Outcome.username]
    | some e => simp [h, h2, Outcome.username]

/-- C4: the orchestrator loop shared by `process_messages_file` and
`process_messages_daily` returns exactly one outcome per input identifier,
in input order (the i-th outcome's username is the i-th input, stripped),
for arbitrary fetch/upload oracles — i.e. regardless of how many channels
fail — and the empty input list yields an empty summary, not an error. -/
theorem batch_summary_order (fromD toD : Option Int)
    (source : String → Except SourceErr (List RawMessage))
    (uploadErr : String → Option String) (bucket region runDate : String) :
    (∀ usernames : List String,
       ((processChannels fromD toD source uploadErr bucket region runDate
          usernames).1).length = usernames.length) ∧
    (∀ (usernames : List String) (i : Nat),
       (((processChannels fromD toD source uploadErr bucket region runDate
           usernames).1)[i]?).map Outcome.username =
         (usernames[i]?).map pyStrip) ∧
    (processChannels fromD toD source uploadErr bucket region runDate []).1 = [] ∧
    (process_messages_file none none [] none source uploadErr bucket region
       runDate).result = Except.ok [] := by
  refine ⟨?_, ?_, rfl, rfl⟩
  · intro usernames
    induction usernames with
    | nil => rfl
    | cons u rest ih => simp [processChannels, ih]
  · intro usernames
    induction usernames with
    | nil => intro i; simp [processChannels]
    | cons u rest ih =>
      intro i
      cases i with
      | zero => simp [processChannels, processChannel_username]
      | succ j => simpa [processChannels] using ih j

/-- C5: a per-channel failure (`ChannelUnavailable`/`ChatInvalidError`) is
caught at the orchestrator boundary, recorded as a failed outcome carrying
the stringified error detail, and never aborts the remaining identifiers:
for `["A","B","C"]` with `B` failing and no other faults, the summary has
3 outcomes — `B` failed, `A` and `C` successful. -/
theorem per_channel_failure_isolated (fromD toD : Option Int)
    (source : String → Except SourceErr (List RawMessage))
    (uploadErr : String → Option String) (bucket region runDate : String)
    (sA sC : List RawMessage)
    (hA : source "A" = .ok sA) (hB : source "B" = .error .chatInvalid)
    (hC : source "C" = .ok sC)
    (uA : uploadErr (artifactFilename "A" runDate) = none)
    (uC : uploadErr (artifactFilename "C" runDate) = none) :
    (processChannels fromD toD source uploadErr bucket region runDate
       ["A", "B", "C"]).1 =
      [Outcome.success "A" (collectMessages fromD toD sA).length
         (s3Url bucket region (artifactFilename "A" runDate)),
       Outcome.failed "B" "Chat \x27B\x27 not found or inaccessible.",
       Outcome.success "C" (collectMessages fromD toD sC).length
         (s3Url bucket region (artifactFilename "C" runDate))] := by
  have tA : pyStrip "A" = "A" := rfl
  have tB : pyStrip "B" = "B" := rfl
  have tC : pyStrip "C" = "C" := rfl
  simp only [processChannels, processChannel, tA, tB, tC, hA, hB, hC,
    downloadResult, uA, uC, download_chat_messages]
  rfl

theorem per_channel_failure_isolated_witness :
    ((fun u => if u = "B" then Except.error SourceErr.chatInvalid
               else Except.ok ([] : List RawMessage)) "A" =
       Except.ok ([] : List RawMessage)) ∧
    (processChannels none none
       (fun u => if u = "B" then Except.error SourceErr.chatInvalid
                 else Except.ok ([] : List RawMessage))
       (fun _ => none) "b" "r" "d" ["A", "B", "C"]).1 =
      [Outcome.success "A" (collectMessages none none []).length
         (s3Url "b" "r" (artifactFilename "A" "d")),
       Outcome.failed "B" "Chat \x27B\x27 not found or inaccessible.",
       Outcome.success "C" (collectMessages none none []).length
         (s3Url "b" "r" (artifactFilename "C" "d"))] :=
  ⟨rfl,
   per_channel_failure_isolated none none
     (fun u => if u = "B" then Except.error SourceErr.chatInvalid
               else Except.ok ([] : List RawMessage))
     (fun _ => none) "b" "r" "d" [] [] rfl rfl rfl rfl rfl⟩

theorem parse_date_error {s : String} {e : HTTPErr}
    (h : parse_date s = .error e) : e = invalidDateErr := by
  unfold parse_date at h
  cases hp : parseYMD s.toList with
  | none =>
    rw [hp] at h
    exact (Except.error.inj h).symm
  | some ymd =>
    obtain ⟨y, m, d⟩ := ymd
    rw [hp] at h
    by_cases hv : validYMD y m d = true
    · simp [hv] at h
    · simp [hv] at h
      exact h.symm

theorem parseOptDate_error {os : Option String} {e : HTTPErr}
    (h : parseOptDate os = .error e) : e = invalidDateErr := by
  cases os with
  | none => simp [parseOptDate] at h
  | some s =>
    cases hp : parse_date s with
    | error e2 =>
      have hh : parseOptDate (some s) = .error e2 := by simp [parseOptDate, hp]
      rw [hh] at h
      exact (Except.error.inj h) ▸ parse_date_error hp
    | ok d =>
      have hh : parseOptDate (some s) = .ok (some d) := by simp [parseOptDate, hp]
      rw [hh] at h
      simp at h

/-- C6 (amended): for every `from_date`/`to_date` input that the date
parser rejects, the request fails with a batch-level error wrapping the
`InvalidDateFormat` detail (the outer handler re-raises the 400 as a 500)
and zero channels are processed — no fetch and no write occurs.  (The
parser also accepts unpadded dates such as `2024-1-1`, which do not match
the strict `YYYY-MM-DD` pattern; see the counterexample.) -/
theorem invalid_date_aborts_batch (fromS toS : Option String)
    (usernames : List String) (bucketErr : Option String)
    (source : String → Except SourceErr (List RawMessage))
    (uploadErr : String → Option String) (bucket region runDate : String)
    (e : HTTPErr)
    (h : parseOptDate fromS = .error e ∨
         ((∃ fd, parseOptDate fromS = .ok fd) ∧ parseOptDate toS = .error e)) :
    process_messages_file fromS toS usernames bucketErr source uploadErr
        bucket region runDate =
      ⟨.error (wrapOuter invalidDateErr), [], []⟩ := by
  rcases h with h | ⟨⟨fd, hfd⟩, h⟩
  · have he := parseOptDate_error h
    subst he
    simp [process_messages_file, h]
  · have he := parseOptDate_error h
    subst he
    simp [process_messages_file, hfd, h]

theorem invalid_date_aborts_batch_witness :
    parseOptDate (some "2024/01/01") = .error invalidDateErr ∧
    process_messages_file (some "2024/01/01") none ["chanA"] none
        (fun _ => Except.ok ([] : List RawMessage)) (fun _ => none)
        "b" "r" "d" =
      ⟨.error (wrapOuter invalidDateErr), [], []⟩ :=
  ⟨rfl,
   invalid_date_aborts_batch (some "2024/01/01") none ["chanA"] none
     (fun _ => Except.ok ([] : List RawMessage)) (fun _ => none)
     "b" "r" "d" invalidDateErr (Or.inl rfl)⟩

/-- C6 (counterexample): `"2024-1-1"` does not match the 4-digit-year/
2-digit-month/2-digit-day pattern, yet `parse_date` accepts it (CPython
strptime month/day fields also match single digits), so the pipeline does
not fail: the channel is fetched and a success summary is returned. -/
theorem strptime_accepts_unpadded_date :
    matchesSpecYMDPattern "2024-1-1" = false ∧
    parse_date "2024-1-1" = .ok (dateCode 2024 1 1) ∧
    (process_messages_file (some "2024-1-1") none ["chanA"] none
       (fun _ => Except.ok ([] : List RawMessage)) (fun _ => none)
       "b" "r" "d").fetches = ["chanA"] ∧
    (process_messages_file (some "2024-1-1") none ["chanA"] none
       (fun _ => Except.ok ([] : List RawMessage)) (fun _ => none)
       "b" "r" "d").result =
      .ok [Outcome.success "chanA" 0 (s3Url "b" "r" (artifactFilename "chanA" "d"))] :=
  ⟨rfl, rfl, rfl, rfl⟩

theorem isMessageObj_msgJson (m : OutMessage) :
    isMessageObj (msgJson m) = true := by
  cases h : m.sender_id <;> simp [msgJson, isMessageObj, h]

theorem hasArtifactSchema_api (r : FetchResult) :
    hasArtifactSchema (apiArtifactJson r) = true := by
  simp only [apiArtifactJson, hasArtifactSchema]
  simp [List.all_eq_true]
  intro x _
  exact isMessageObj_msgJson x

theorem processChannel_writes (fromD toD : Option Int)
    (source : String → Except SourceErr (List RawMessage))
    (uploadErr : String → Option String) (bucket region runDate u : String) :
    (processChannel fromD toD source uploadErr bucket region runDate u).2 = [] ∨
    ∃ r, (processChannel fromD toD source uploadErr bucket region runDate u).2 =
      [(artifactFilename (pyStrip u) runDate, apiArtifactJson r)] := by
  unfold processChannel
  cases h : downloadResult (pyStrip u) ("Token_" ++ pyStrip u) fromD toD
      (source (pyStrip u)) with
  | error e => left; simp [h]
  | ok r =>
    right
    refine ⟨r, ?_⟩
    cases h2 : uploadErr (artifactFilename (pyStrip u) runDate) with
    | none => simp [h, h2]
    | some e => simp [h, h2]

/-- C7 (amended): every artifact persisted by the HTTP/scheduled
orchestrator loop (api.py `process_messages_file`, api_time.py
`process_messages_daily`) has the document schema
`\x7btoken_name: string, message_count: integer, messages:
[\x7bdate, sender_id, message, message_id\x7d]\x7d` and is named
`telegram_\x7bidentifier\x7d_\x7bdate-of-run\x7d.json`; the CLI path
(cmd.py) instead writes the bare messages array (see counterexample). -/
theorem artifact_schema_api_path (fromD toD : Option Int)
    (source : String → Except SourceErr (List RawMessage))
    (uploadErr : String → Option String) (bucket region runDate : String)
    (usernames : List String) (fn : String) (doc : Json)
    (h : (fn, doc) ∈ (processChannels fromD toD source uploadErr bucket
        region runDate usernames).2) :
    hasArtifactSchema doc = true ∧
    ∃ u ∈ usernames, fn = artifactFilename (pyStrip u) runDate := by
  induction usernames with
  | nil => simp [processChannels] at h
  | cons u rest ih =>
    rw [show (processChannels fromD toD source uploadErr bucket region runDate
        (u :: rest)).2 =
      (processChannel fromD toD source uploadErr bucket region runDate u).2 ++
      (processChannels fromD toD source uploadErr bucket region runDate rest).2
      from rfl] at h
    rcases List.mem_append.mp h with h1 | h2
    · rcases processChannel_writes fromD toD source uploadErr bucket region
        runDate u with hw | ⟨r, hw⟩
      · rw [hw] at h1
        simp at h1
      · rw [hw] at h1
        rcases List.mem_singleton.mp h1 with heq
        have hfn : fn = artifactFilename (pyStrip u) runDate :=
          congrArg Prod.fst heq
        have hdoc : doc = apiArtifactJson r := congrArg Prod.snd heq
        exact ⟨hdoc ▸ hasArtifactSchema_api r, u, List.mem_cons_self u rest, hfn⟩
    · rcases ih h2 with ⟨hs, v, hv, hfn⟩
      exact ⟨hs, v, List.mem_cons_of_mem u hv, hfn⟩

theorem artifact_schema_api_path_witness :
    ((artifactFilename "u" "d",
        apiArtifactJson (download_chat_messages ("Token_" ++ "u") none none [])) ∈
      (processChannels none none (fun _ => Except.ok ([] : List RawMessage))
        (fun _ => none) "b" "r" "d" ["u"]).2) ∧
    (hasArtifactSchema
        (apiArtifactJson (download_chat_messages ("Token_" ++ "u") none none [])) = true ∧
      ∃ u ∈ ["u"], artifactFilename "u" "d" = artifactFilename (pyStrip u) "d") :=
  ⟨List.mem_singleton.mpr rfl,
   artifact_schema_api_path none none
     (fun _ => Except.ok ([] : List RawMessage)) (fun _ => none) "b" "r" "d"
     ["u"] (artifactFilename "u" "d")
     (apiArtifactJson (download_chat_messages ("Token_" ++ "u") none none []))
     (List.mem_singleton.mpr rfl)⟩

/-- C7 (counterexample): the CLI path persists an artifact that is a bare
JSON array, not an object with `token_name`/`message_count`/`messages`:
for one channel whose stream is empty, `process_chats` writes the document
`[]`, which fails the schema test. -/
theorem cmd_artifact_lacks_schema :
    cmd_process_chats none none (fun _ => Except.ok ([] : List RawMessage))
        "d" ["chan"] =
      [(artifactFilename "chan" "d", Json.arr [])] ∧
    hasArtifactSchema (Json.arr []) = false :=
  ⟨rfl, rfl⟩

/-- C8: serialization is deterministic — `json.dumps(result, indent=4)` is
modelled as a pure function of the `FetchResult` value (fixed key order
`token_name`, `message_count`, `messages`; fixed 4-space indentation), so
serializing two `FetchResult`s with identical field values produces
byte-identical JSON text. -/
theorem serialization_deterministic (r s : FetchResult)
    (h1 : r.token_name = s.token_name)
    (h2 : r.message_count = s.message_count)
    (h3 : r.messages = s.messages) :
    serializeFetchResult r = serializeFetchResult s := by
  cases r
  cases s
  cases h1
  cases h2
  cases h3
  rfl

theorem serialization_deterministic_witness :
    (FetchResult.token_name ⟨"Token_x", 1, [⟨"2024-01-01T08:00:00+00:00", some 5, "hi", 7⟩]⟩ =
      FetchResult.token_name ⟨"Token_x", 1, [⟨"2024-01-01T08:00:00+00:00", some 5, "hi", 7⟩]⟩) ∧
    serializeFetchResult ⟨"Token_x", 1, [⟨"2024-01-01T08:00:00+00:00", some 5, "hi", 7⟩]⟩ =
      serializeFetchResult ⟨"Token_x", 1, [⟨"2024-01-01T08:00:00+00:00", some 5, "hi", 7⟩]⟩ :=
  ⟨rfl, serialization_deterministic _ _ rfl rfl rfl⟩

/-- C9: in every `FetchResult` produced by the fetch, `message_count`
equals the length of `messages`; and a success outcome's reported
`message_count` equals the number of messages in the artifact written for
that channel (the artifact document is the serialized fetch result, whose
message list has exactly that length). -/
theorem message_count_consistent :
    (∀ (tok : String) (fromD toD : Option Int) (stream : List RawMessage),
       (download_chat_messages tok fromD toD stream).message_count =
         (download_chat_messages tok fromD toD stream).messages.length) ∧
    (∀ (fromD toD : Option Int)
       (source : String → Except SourceErr (List RawMessage))
       (uploadErr : String → Option String)
       (bucket region runDate u uname : String) (mc : Nat) (url : String),
       (processChannel fromD toD source uploadErr bucket region runDate u).1 =
         Outcome.success uname mc url →
       ∃ fn r,
         (processChannel fromD toD source uploadErr bucket region runDate u).2 =
           [(fn, apiArtifactJson r)] ∧ mc = r.messages.length) := by
  constructor
  · intro tok fromD toD stream
    rfl
  · intro fromD toD source uploadErr bucket region runDate u uname mc url h
    cases hsrc : source (pyStrip u) with
    | error se =>
      cases se <;> simp [processChannel, downloadResult, hsrc] at h
    | ok stream =>
      cases hup : uploadErr (artifactFilename (pyStrip u) runDate) with
      | some e => simp [processChannel, downloadResult, hsrc, hup] at h
      | none =>
        simp only [processChannel, downloadResult, hsrc, hup] at h ⊢
        refine ⟨artifactFilename (pyStrip u) runDate,
          download_chat_messages ("Token_" ++ pyStrip u) fromD toD stream,
          rfl, ?_⟩
        have hmc : (download_chat_messages ("Token_" ++ pyStrip u) fromD toD
            stream).message_count = mc := by
          cases h
          rfl
        rw [← hmc]
        rfl

theorem message_count_consistent_witness :
    (processChannel none none (fun _ => Except.ok ([] : List RawMessage))
       (fun _ => none) "b" "r" "d" "u").1 =
      Outcome.success "u" 0 (s3Url "b" "r" (artifactFilename "u" "d")) ∧
    ∃ fn r,
      (processChannel none none (fun _ => Except.ok ([] : List RawMessage))
         (fun _ => none) "b" "r" "d" "u").2 =
        [(fn, apiArtifactJson r)] ∧ 0 = r.messages.length :=
  ⟨rfl,
   message_count_consistent.2 none none
     (fun _ => Except.ok ([] : List RawMessage)) (fun _ => none)
     "b" "r" "d" "u" "u" 0 (s3Url "b" "r" (artifactFilename "u" "d")) rfl⟩
